import Mathlib

/-!
Verification model of `pkg/server/server.go` from the iotencoder repository.

The Go `Server` owns four collaborators: the HTTP server (`srv`), the encoder
RPC service (`enc`), the postgres connection pool (`db`) and the MQTT client
(`mqtt`).  `Server.Start` runs their startup steps in sequence and
`Server.Stop` runs their shutdown steps in sequence.  We model each
collaborator call by its outcome (`Option String`: `none` means the Go call
returned a nil error, `some e` means it returned the error `e`), and we model
`Server.Start` / `Server.Stop` as functions from those outcomes to the trace of
steps executed plus the final result.

In the Go source, `s.db` has interface type `postgres.DB` and `s.mqtt` has
interface type `mqtt.Client`; their lifecycle methods are reached through the
dynamic type assertions `s.db.(system.Component)` and
`s.mqtt.(system.Component)`, which panic at runtime when the dynamic type does
not implement `system.Component`.  `Handles` records, for each of the two
handles, whether its dynamic type implements `system.Component`; the model
yields a `panicked` result exactly where the Go assertion would fault.
-/

/-- The startup steps of `Server.Start`, in source order: start the postgres
connection pool, start the MQTT client, migrate up the database, start the
encoder RPC service, launch the HTTP listener goroutine. -/
inductive StartStep
  | dbStart
  | mqttStart
  | migrateUp
  | encStart
  | listen
deriving DecidableEq, Repr

/-- The shutdown steps of `Server.Stop`, in source order: stop the encoder,
stop the MQTT client, stop the database, shut down the HTTP server. -/
inductive StopStep
  | encStop
  | mqttStop
  | dbStop
  | srvShutdown
deriving DecidableEq, Repr

/-- Whether the dynamic types of the `s.db` (interface `postgres.DB`) and
`s.mqtt` (interface `mqtt.Client`) handles implement `system.Component`.
`Server.Start` and `Server.Stop` probe this at runtime with the type
assertions `s.db.(system.Component)` and `s.mqtt.(system.Component)`. -/
structure Handles where
  dbIsComponent : Bool
  mqttIsComponent : Bool
deriving DecidableEq, Repr

/-- Outcomes of the collaborator calls made by `Server.Start`:
`none` = the Go call returned a nil error, `some e` = it returned error `e`. -/
structure StartEnv where
  dbStart : Option String
  mqttStart : Option String
  migrateUp : Option String
  encStart : Option String
deriving DecidableEq, Repr

/-- Outcomes of the collaborator calls made by `Server.Stop`. -/
structure StopEnv where
  encStop : Option String
  mqttStop : Option String
  dbStop : Option String
  srvShutdown : Option String
deriving DecidableEq, Repr

/-- Result of `Server.Start`: `panicked` when a `system.Component` type
assertion faulted (trace = steps completed before the fault), `errored` when a
step returned an error (the Go method returns the wrapped error), `listening`
when every step succeeded and the `ListenAndServe` goroutine was launched. -/
inductive StartResult
  | panicked (trace : List StartStep)
  | errored (trace : List StartStep) (msg : String)
  | listening (trace : List StartStep)
deriving DecidableEq, Repr

/-- A call made by `Server.Stop`.  `withTimeoutCtx` records whether the Go
call receives the `context.WithTimeout(context.Background(), 5*time.Second)`
context created at the top of `Stop`: in the source only `s.srv.Shutdown(ctx)`
does; `s.enc.Stop()`, the mqtt `Stop()` and the db `Stop()` take no context. -/
structure StopCall where
  step : StopStep
  withTimeoutCtx : Bool
deriving DecidableEq, Repr

/-- Result of `Server.Stop`, with the trace of calls it made. -/
inductive StopResult
  | panicked (trace : List StopCall)
  | errored (trace : List StopCall) (msg : String)
  | ok (trace : List StopCall)
deriving DecidableEq, Repr

/-- `errors.Wrap(err, msg)` produces the message `msg ++ ": " ++ err`. -/
def errorsWrap (msg e : String) : String := msg ++ ": " ++ e

/-- The grace period `Server.Stop` builds into its context:
`5 * time.Second`, in seconds. -/
def stopGracePeriodSeconds : Nat := 5

/-- Model of `(*Server).Start` from `pkg/server/server.go`: start the db
through the `system.Component` assertion, start the mqtt client through the
`system.Component` assertion, migrate up the database, start the encoder, then
launch the HTTP listener goroutine.  Each error is wrapped with a
step-specific message and returned at once.  (The Go method then blocks on an
interrupt signal and calls `Stop`; the model covers the run up to the point
where the listener goroutine is launched.) -/
def Server.Start (h : Handles) (env : StartEnv) : StartResult :=
  if h.dbIsComponent then
    match env.dbStart with
    | some e => .errored [.dbStart] (errorsWrap "failed to start db" e)
    | none =>
      if h.mqttIsComponent then
        match env.mqttStart with
        | some e => .errored [.dbStart, .mqttStart] (errorsWrap "failed to start mqtt client" e)
        | none =>
          match env.migrateUp with
          | some e =>
            .errored [.dbStart, .mqttStart, .migrateUp] (errorsWrap "failed to migrate the database" e)
          | none =>
            match env.encStart with
            | some e =>
              .errored [.dbStart, .mqttStart, .migrateUp, .encStart]
                (errorsWrap "failed to start encoder" e)
            | none => .listening [.dbStart, .mqttStart, .migrateUp, .encStart, .listen]
      else .panicked [.dbStart]
  else .panicked []

/-- Model of `(*Server).Stop` from `pkg/server/server.go`: create a context
with a 5 second timeout (passed only to `srv.Shutdown`), then stop the
encoder, the mqtt client (through the `system.Component` assertion), the db
(through the `system.Component` assertion), and finally shut down the HTTP
server.  Each error is returned unwrapped at once. -/
def Server.Stop (h : Handles) (env : StopEnv) : StopResult :=
  match env.encStop with
  | some e => .errored [⟨.encStop, false⟩] e
  | none =>
    if h.mqttIsComponent then
      match env.mqttStop with
      | some e => .errored [⟨.encStop, false⟩, ⟨.mqttStop, false⟩] e
      | none =>
        if h.dbIsComponent then
          match env.dbStop with
          | some e =>
            .errored [⟨.encStop, false⟩, ⟨.mqttStop, false⟩, ⟨.dbStop, false⟩] e
          | none =>
            match env.srvShutdown with
            | some e =>
              .errored
                [⟨.encStop, false⟩, ⟨.mqttStop, false⟩, ⟨.dbStop, false⟩, ⟨.srvShutdown, true⟩] e
            | none =>
              .ok [⟨.encStop, false⟩, ⟨.mqttStop, false⟩, ⟨.dbStop, false⟩, ⟨.srvShutdown, true⟩]
        else .panicked [⟨.encStop, false⟩, ⟨.mqttStop, false⟩]
    else .panicked [⟨.encStop, false⟩]

/-- The trace of steps a `StartResult` carries. -/
def StartResult.trace : StartResult → List StartStep
  | .panicked t => t
  | .errored t _ => t
  | .listening t => t

/-- The trace of calls a `StopResult` carries. -/
def StopResult.trace : StopResult → List StopCall
  | .panicked t => t
  | .errored t _ => t
  | .ok t => t

/-- The steps `Server.Start` executed, in order. -/
def startTrace (h : Handles) (env : StartEnv) : List StartStep :=
  (Server.Start h env).trace

/-- The calls `Server.Stop` made, in order. -/
def stopTrace (h : Handles) (env : StopEnv) : List StopCall :=
  (Server.Stop h env).trace

/-- The full sequence of startup steps in source order. -/
def startOrder : List StartStep :=
  [.dbStart, .mqttStart, .migrateUp, .encStart, .listen]

/-- The full sequence of shutdown calls in source order, with the flag saying
which receive the 5 second timeout context. -/
def fullStopPlan : List StopCall :=
  [⟨.encStop, false⟩, ⟨.mqttStop, false⟩, ⟨.dbStop, false⟩, ⟨.srvShutdown, true⟩]

/-- The startup step that launches the component a shutdown step stops. -/
def stopStepStarts : StopStep → StartStep
  | .encStop => .encStart
  | .mqttStop => .mqttStart
  | .dbStop => .dbStart
  | .srvShutdown => .listen

/-- Model of the `Server` value built by `NewServer`: the configuration each
argument flows into, plus the address hardcoded into the datastore client and
the mux routes registered. -/
structure Server where
  srvAddr : String
  dbConnStr : String
  dbEncryptionPassword : String
  datastoreAddr : String
  muxRoutes : List String
deriving DecidableEq, Repr

/-- Model of `NewServer(addr, connStr, encryptionPassword, logger)` from
`pkg/server/server.go`: the db is built from `connStr` and
`encryptionPassword`, the datastore client is built with the literal address
`"http://192.168.1.116:8081"`, and the mux registers the twirp encoder path
prefix, `/pulse` and `/metrics`; the HTTP server listens on `addr`.  (The
logger argument configures logging only and is omitted.) -/
def NewServer (addr connStr encryptionPassword : String) : Server :=
  { srvAddr := addr
    dbConnStr := connStr
    dbEncryptionPassword := encryptionPassword
    datastoreAddr := "http://192.168.1.116:8081"
    muxRoutes := ["/twirp/decode.iot.encoder.Encoder/", "/pulse", "/metrics"] }

/-- An HTTP request as seen by a handler: method, path, headers, body. -/
structure HTTPRequest where
  method : String
  path : String
  headers : List (String × String)
  body : String
deriving DecidableEq, Repr

/-- Model of `PulseHandler(w, r)` from `pkg/server/server.go`:
`fmt.Fprintf(w, "ok")` appends `"ok"` to whatever the response writer `w`
already holds, ignoring the request `r` entirely. -/
def PulseHandler (w : String) (r : HTTPRequest) : String :=
  w ++ "ok"

/-- A persisted stream binding, as described by the data model: opaque unique
`uid`, broker `topic` (not unique across specs), recipient key, datastore
target, creation instant. -/
structure StreamSpec where
  uid : String
  topic : String
  recipientKey : String
  datastoreTarget : String
  createdAt : Nat
deriving DecidableEq, Repr

/-- Errors a lifecycle call can surface. -/
inductive CreateErr
  | conflict
  | unavailable
  | subscribeFailed
deriving DecidableEq, Repr

/-- State visible to the lifecycle engine: the StreamRegistry contents
(persisted StreamSpec rows) and the live broker subscriptions as
(uid, topic) pairs. -/
structure EngineState where
  registry : List StreamSpec
  subs : List (String × String)
deriving DecidableEq, Repr

/-- Outcomes of the collaborator calls a single CreateStream run makes:
whether Storage is reachable for the registry write, and whether
`Broker.Subscribe` for the topic fails. -/
structure CreateEnv where
  registryUnavailable : Bool
  subscribeFails : Bool
deriving DecidableEq, Repr

/-- Modelled from the spec: `StreamRegistry.Create` (the `pkg/postgres`
implementation is not under `src/`).  `Create(spec)` fails with `Conflict`
when a row with the same `uid` exists, with `Unavailable` when Storage is
unreachable, and otherwise appends the row; it is idempotency-keyed by `uid`,
not by `topic`. -/
def StreamRegistry.Create (unavailable : Bool) (reg : List StreamSpec)
    (spec : StreamSpec) : Except CreateErr (List StreamSpec) :=
  if unavailable then .error .unavailable
  else if reg.any (fun s => s.uid = spec.uid) then .error .conflict
  else .ok (reg ++ [spec])

/-- Modelled from the spec: `StreamRegistry.Delete` used as the compensating
delete of a just-written entry — it removes every row with the given `uid`. -/
def StreamRegistry.Delete (reg : List StreamSpec) (uid : String) :
    List StreamSpec :=
  reg.filter (fun s => s.uid ≠ uid)

/-- Modelled from the spec: the SubscriptionManager Create transition backing
`CreateStream` (`pkg/rpc` is not under `src/`).  Steps: (1) persist the new
StreamSpec via StreamRegistry — on failure abort with nothing else happening;
(2) subscribe to the Broker for the topic — on failure compensate by deleting
the just-written StreamRegistry entry; (3) insert into the in-memory maps;
(4) return the uid. -/
def CreateStream (env : CreateEnv) (st : EngineState) (spec : StreamSpec) :
    EngineState × Except CreateErr String :=
  match StreamRegistry.Create env.registryUnavailable st.registry spec with
  | .error e => (st, .error e)
  | .ok reg1 =>
    if env.subscribeFails then
      ({ st with registry := StreamRegistry.Delete reg1 spec.uid },
       .error .subscribeFailed)
    else
      ({ registry := reg1, subs := st.subs ++ [(spec.uid, spec.topic)] },
       .ok spec.uid)

/-!  Theorems.  -/

/-- Claim C1 (counterexample): in the all-success run of `Server.Start`, the
MQTT client is connected strictly before the database migration runs, so the
chain is not "Storage started and migrated, then the Broker client
connected". -/
theorem start_connects_broker_before_migration :
    startTrace ⟨true, true⟩ ⟨none, none, none, none⟩ =
      [.dbStart, .mqttStart, .migrateUp, .encStart, .listen] ∧
    (startTrace ⟨true, true⟩ ⟨none, none, none, none⟩).indexOf StartStep.mqttStart <
      (startTrace ⟨true, true⟩ ⟨none, none, none, none⟩).indexOf StartStep.migrateUp := by
  decide

/-- Claim C1 (amended): `Server.Start` runs db start, then mqtt client start,
then database migration, then encoder start, then the HTTP listener, and every
run executes a prefix of that chain: no later step runs before all earlier
ones completed, and the listener is only reached when every earlier step
succeeded. -/
theorem start_strict_chain (h : Handles) (env : StartEnv) :
    startTrace h env = startOrder.take (startTrace h env).length ∧
    (StartStep.listen ∈ startTrace h env →
      env.dbStart = none ∧ env.mqttStart = none ∧ env.migrateUp = none ∧
        env.encStart = none ∧ h.dbIsComponent = true ∧ h.mqttIsComponent = true) := by
  obtain ⟨dc, mc⟩ := h
  obtain ⟨d, m, g, e⟩ := env
  cases dc <;> cases mc <;> cases d <;> cases m <;> cases g <;> cases e <;>
    simp [startTrace, Server.Start, StartResult.trace, startOrder]

/-- Witness for `start_strict_chain` at the all-success environment. -/
theorem start_strict_chain_witness :
    startTrace ⟨true, true⟩ ⟨none, none, none, none⟩ =
      startOrder.take (startTrace ⟨true, true⟩ ⟨none, none, none, none⟩).length ∧
    (StartStep.listen ∈ startTrace ⟨true, true⟩ ⟨none, none, none, none⟩ →
      (⟨none, none, none, none⟩ : StartEnv).dbStart = none ∧
        (⟨none, none, none, none⟩ : StartEnv).mqttStart = none ∧
        (⟨none, none, none, none⟩ : StartEnv).migrateUp = none ∧
        (⟨none, none, none, none⟩ : StartEnv).encStart = none ∧
        (⟨true, true⟩ : Handles).dbIsComponent = true ∧
        (⟨true, true⟩ : Handles).mqttIsComponent = true) :=
  start_strict_chain ⟨true, true⟩ ⟨none, none, none, none⟩

/-- Claim C9: the datastore client address built inside `NewServer` is the
literal `"http://192.168.1.116:8081"`, identical for every choice of the
`addr`, `connStr` and `encryptionPassword` arguments, while those arguments do
flow into the HTTP listen address and the db configuration. -/
theorem datastore_addr_hardcoded
    (addr connStr encryptionPassword addr2 connStr2 pw2 : String) :
    (NewServer addr connStr encryptionPassword).datastoreAddr =
      "http://192.168.1.116:8081" ∧
    (NewServer addr connStr encryptionPassword).datastoreAddr =
      (NewServer addr2 connStr2 pw2).datastoreAddr ∧
    (NewServer addr connStr encryptionPassword).srvAddr = addr ∧
    (NewServer addr connStr encryptionPassword).dbConnStr = connStr ∧
    (NewServer addr connStr encryptionPassword).dbEncryptionPassword =
      encryptionPassword :=
  ⟨rfl, rfl, rfl, rfl, rfl⟩

/-- Claim C10: `PulseHandler` writes the body `"ok"` for every request,
whatever its method, path, headers or body. -/
theorem pulse_handler_always_ok (r r2 : HTTPRequest) :
    PulseHandler "" r = "ok" ∧
    (∀ w : String, PulseHandler w r = w ++ "ok") ∧
    PulseHandler "" r = PulseHandler "" r2 :=
  ⟨rfl, fun _ => rfl, rfl⟩

/-- Claim C4: whenever the HTTP listener step is reached in `Server.Start`,
the mqtt client start and the encoder start (which runs recovery) already
completed successfully, and the encoder start precedes the listener in the
executed trace — so no lifecycle call can be accepted before recovery. -/
theorem rpc_surface_opens_only_after_recovery (h : Handles) (env : StartEnv)
    (hl : StartStep.listen ∈ startTrace h env) :
    env.mqttStart = none ∧ env.encStart = none ∧
    startTrace h env = [.dbStart, .mqttStart, .migrateUp, .encStart, .listen] ∧
    (startTrace h env).indexOf StartStep.encStart <
      (startTrace h env).indexOf StartStep.listen := by
  obtain ⟨dc, mc⟩ := h
  obtain ⟨d, m, g, e⟩ := env
  cases dc <;> cases mc <;> cases d <;> cases m <;> cases g <;> cases e <;>
    simp_all [startTrace, Server.Start, StartResult.trace]

/-- Witness for `rpc_surface_opens_only_after_recovery` at the all-success
environment. -/
theorem rpc_surface_opens_only_after_recovery_witness :
    (⟨none, none, none, none⟩ : StartEnv).mqttStart = none ∧
    (⟨none, none, none, none⟩ : StartEnv).encStart = none ∧
    startTrace ⟨true, true⟩ ⟨none, none, none, none⟩ =
      [.dbStart, .mqttStart, .migrateUp, .encStart, .listen] ∧
    (startTrace ⟨true, true⟩ ⟨none, none, none, none⟩).indexOf StartStep.encStart <
      (startTrace ⟨true, true⟩ ⟨none, none, none, none⟩).indexOf StartStep.listen :=
  rpc_surface_opens_only_after_recovery ⟨true, true⟩ ⟨none, none, none, none⟩ (by decide)

/-- Claim C7: each startup step of `Server.Start` that returns an error makes
`Start` return at once with a wrapped error naming the failing step, and the
executed trace stops at the failing step, so none of the later steps run. -/
theorem start_step_failure_wraps_and_halts (h : Handles) (env : StartEnv) (e : String)
    (hdb : h.dbIsComponent = true) (hmq : h.mqttIsComponent = true) :
    (env.dbStart = some e →
      Server.Start h env = .errored [.dbStart] (errorsWrap "failed to start db" e)) ∧
    (env.dbStart = none → env.mqttStart = some e →
      Server.Start h env =
        .errored [.dbStart, .mqttStart] (errorsWrap "failed to start mqtt client" e)) ∧
    (env.dbStart = none → env.mqttStart = none → env.migrateUp = some e →
      Server.Start h env =
        .errored [.dbStart, .mqttStart, .migrateUp]
          (errorsWrap "failed to migrate the database" e)) ∧
    (env.dbStart = none → env.mqttStart = none → env.migrateUp = none →
      env.encStart = some e →
      Server.Start h env =
        .errored [.dbStart, .mqttStart, .migrateUp, .encStart]
          (errorsWrap "failed to start encoder" e)) := by
  refine ⟨fun h1 => ?_, fun h1 h2 => ?_, fun h1 h2 h3 => ?_, fun h1 h2 h3 h4 => ?_⟩
  · simp [Server.Start, hdb, hmq, h1]
  · simp [Server.Start, hdb, hmq, h1, h2]
  · simp [Server.Start, hdb, hmq, h1, h2, h3]
  · simp [Server.Start, hdb, hmq, h1, h2, h3, h4]

/-- Witness for `start_step_failure_wraps_and_halts`: the mqtt start failure
case at a concrete environment. -/
theorem start_step_failure_wraps_and_halts_witness :
    Server.Start ⟨true, true⟩ ⟨none, some "boom", none, none⟩ =
      .errored [.dbStart, .mqttStart] (errorsWrap "failed to start mqtt client" "boom") :=
  (start_step_failure_wraps_and_halts ⟨true, true⟩ ⟨none, some "boom", none, none⟩ "boom"
    rfl rfl).2.1 rfl rfl

/-- Claim C6 (counterexample): lifecycle invocation in `Server.Start` and
`Server.Stop` goes through dynamic `system.Component` type assertions, so with
a db or mqtt handle whose dynamic type does not implement `system.Component`
the invocation faults with an invalid-assertion panic. -/
theorem lifecycle_assertion_fault_possible :
    Server.Start ⟨false, true⟩ ⟨none, none, none, none⟩ = .panicked [] ∧
    Server.Start ⟨true, false⟩ ⟨none, none, none, none⟩ = .panicked [.dbStart] ∧
    Server.Stop ⟨true, false⟩ ⟨none, none, none, none⟩ =
      .panicked [⟨.encStop, false⟩] := by
  decide

/-- Claim C6 (amended): `Server.Start` and `Server.Stop` probe the db and mqtt
handles for the lifecycle capability with dynamic `system.Component` type
assertions (only the encoder is invoked through a typed method), and whenever
the probed handle does not implement `system.Component` the run panics at that
assertion. -/
theorem lifecycle_capability_probed_dynamically (env : StartEnv) (senv : StopEnv)
    (b : Bool) :
    Server.Start ⟨false, b⟩ env = .panicked [] ∧
    (env.dbStart = none → Server.Start ⟨true, false⟩ env = .panicked [.dbStart]) ∧
    (senv.encStop = none →
      Server.Stop ⟨b, false⟩ senv = .panicked [⟨.encStop, false⟩]) ∧
    (senv.encStop = none → senv.mqttStop = none →
      Server.Stop ⟨false, true⟩ senv =
        .panicked [⟨.encStop, false⟩, ⟨.mqttStop, false⟩]) := by
  refine ⟨?_, fun h1 => ?_, fun h1 => ?_, fun h1 h2 => ?_⟩
  · simp [Server.Start]
  · simp [Server.Start, h1]
  · simp [Server.Stop, h1]
  · simp [Server.Stop, h1, h2]

/-- Witness for `lifecycle_capability_probed_dynamically`: a concrete stop run
panicking on the db assertion. -/
theorem lifecycle_capability_probed_dynamically_witness :
    Server.Stop ⟨false, true⟩ ⟨none, none, none, none⟩ =
      .panicked [⟨.encStop, false⟩, ⟨.mqttStop, false⟩] :=
  (lifecycle_capability_probed_dynamically ⟨none, none, none, none⟩
    ⟨none, none, none, none⟩ true).2.2.2 rfl rfl

/-- Every call `Server.Stop` makes is one of the four calls of the source
sequence, with the context flag the source gives it. -/
theorem stopTrace_subset_plan (h : Handles) (env : StopEnv) :
    ∀ c ∈ stopTrace h env, c ∈ fullStopPlan := by
  obtain ⟨dc, mc⟩ := h
  obtain ⟨a, b, c2, d⟩ := env
  cases dc <;> cases mc <;> cases a <;> cases b <;> cases c2 <;> cases d <;>
    simp [stopTrace, Server.Stop, StopResult.trace, fullStopPlan]

/-- Claim C3 (counterexample): in the all-success run of `Server.Stop`, the
component `Stop()` calls do not receive the 5 second deadline context (only
`srv.Shutdown(ctx)` does), and the order of calls is not the reverse of the
start order (the HTTP server, started last, is shut down last, not first). -/
theorem stop_not_deadline_bounded_everywhere :
    Server.Stop ⟨true, true⟩ ⟨none, none, none, none⟩ = .ok fullStopPlan ∧
    ¬ (∀ c ∈ stopTrace ⟨true, true⟩ ⟨none, none, none, none⟩,
        c.withTimeoutCtx = true) ∧
    (stopTrace ⟨true, true⟩ ⟨none, none, none, none⟩).map
        (fun c => stopStepStarts c.step) ≠
      ((startTrace ⟨true, true⟩ ⟨none, none, none, none⟩).filter
        (fun s => s ≠ StartStep.migrateUp)).reverse := by
  decide

/-- Claim C3 (amended): `Server.Stop` stops the encoder, the mqtt client and
the db in the reverse of the order those three components were started, then
shuts down the HTTP server last; a fixed 5 second grace period is created, but
it bounds only the HTTP server shutdown call — the component `Stop()` calls
receive no deadline. -/
theorem stop_reverse_components_only_http_bounded (h : Handles) (env : StopEnv) :
    (stopTrace h env).map StopCall.step =
      [StopStep.encStop, .mqttStop, .dbStop, .srvShutdown].take
        (stopTrace h env).length ∧
    [StopStep.encStop, .mqttStop, .dbStop].map stopStepStarts =
      [StartStep.dbStart, .mqttStart, .encStart].reverse ∧
    stopGracePeriodSeconds = 5 ∧
    (∀ c ∈ stopTrace h env, c.withTimeoutCtx = true ↔ c.step = StopStep.srvShutdown) := by
  obtain ⟨dc, mc⟩ := h
  obtain ⟨a, b, c2, d⟩ := env
  cases dc <;> cases mc <;> cases a <;> cases b <;> cases c2 <;> cases d <;>
    simp [stopTrace, Server.Stop, StopResult.trace, stopStepStarts,
      stopGracePeriodSeconds]

/-- Witness for `stop_reverse_components_only_http_bounded` at the
all-success environment. -/
theorem stop_reverse_components_only_http_bounded_witness :
    (stopTrace ⟨true, true⟩ ⟨none, none, none, none⟩).map StopCall.step =
      [StopStep.encStop, .mqttStop, .dbStop, .srvShutdown].take
        (stopTrace ⟨true, true⟩ ⟨none, none, none, none⟩).length ∧
    [StopStep.encStop, .mqttStop, .dbStop].map stopStepStarts =
      [StartStep.dbStart, .mqttStart, .encStart].reverse ∧
    stopGracePeriodSeconds = 5 ∧
    (∀ c ∈ stopTrace ⟨true, true⟩ ⟨none, none, none, none⟩,
      c.withTimeoutCtx = true ↔ c.step = StopStep.srvShutdown) :=
  stop_reverse_components_only_http_bounded ⟨true, true⟩ ⟨none, none, none, none⟩

/-- Claim C5 (counterexample): in the all-success run of `Server.Stop`, the
db and mqtt stop calls are made without the deadline-carrying context, so the
cancellation signal is not propagated to the Storage and Broker calls. -/
theorem stop_deadline_ctx_not_propagated :
    (⟨StopStep.dbStop, false⟩ : StopCall) ∈
      stopTrace ⟨true, true⟩ ⟨none, none, none, none⟩ ∧
    (⟨StopStep.mqttStop, false⟩ : StopCall) ∈
      stopTrace ⟨true, true⟩ ⟨none, none, none, none⟩ ∧
    ¬ (∃ c ∈ stopTrace ⟨true, true⟩ ⟨none, none, none, none⟩,
        c.step = StopStep.dbStop ∧ c.withTimeoutCtx = true) := by
  decide

/-- Claim C5 (amended): the deadline context created in `Server.Stop` reaches
only the HTTP server shutdown call; every other call made during shutdown is
made without it. -/
theorem stop_ctx_reaches_only_http_shutdown (h : Handles) (env : StopEnv)
    (c : StopCall) (hc : c ∈ stopTrace h env)
    (hs : c.step ≠ StopStep.srvShutdown) :
    c.withTimeoutCtx = false := by
  have hp := stopTrace_subset_plan h env c hc
  fin_cases hp <;> simp_all

/-- Witness for `stop_ctx_reaches_only_http_shutdown` at the encoder stop
call of the all-success run. -/
theorem stop_ctx_reaches_only_http_shutdown_witness :
    (⟨StopStep.encStop, false⟩ : StopCall).withTimeoutCtx = false :=
  stop_ctx_reaches_only_http_shutdown ⟨true, true⟩ ⟨none, none, none, none⟩
    ⟨StopStep.encStop, false⟩ (by decide) (by decide)

/-- Claim C8: `Server.Stop` returns the first component stop error
immediately: when the encoder (or then the mqtt client, or then the db) stop
fails, the returned error is that error and the trace stops there — in
particular the HTTP server, shut down last, is not shut down. -/
theorem stop_short_circuits_on_first_error (h : Handles) (env : StopEnv) (e : String)
    (hmq : h.mqttIsComponent = true) (hdb : h.dbIsComponent = true) :
    (env.encStop = some e →
      Server.Stop h env = .errored [⟨.encStop, false⟩] e) ∧
    (env.encStop = none → env.mqttStop = some e →
      Server.Stop h env = .errored [⟨.encStop, false⟩, ⟨.mqttStop, false⟩] e) ∧
    (env.encStop = none → env.mqttStop = none → env.dbStop = some e →
      Server.Stop h env =
        .errored [⟨.encStop, false⟩, ⟨.mqttStop, false⟩, ⟨.dbStop, false⟩] e) := by
  refine ⟨fun h1 => ?_, fun h1 h2 => ?_, fun h1 h2 h3 => ?_⟩
  · simp [Server.Stop, h1]
  · simp [Server.Stop, hmq, h1, h2]
  · simp [Server.Stop, hmq, hdb, h1, h2, h3]

/-- Witness for `stop_short_circuits_on_first_error`: the encoder stop
failure at a concrete environment. -/
theorem stop_short_circuits_on_first_error_witness :
    Server.Stop ⟨true, true⟩ ⟨some "stuck", none, none, none⟩ =
      .errored [⟨.encStop, false⟩] "stuck" :=
  (stop_short_circuits_on_first_error ⟨true, true⟩ ⟨some "stuck", none, none, none⟩
    "stuck" rfl rfl).1 rfl

/-- Claim C2: when a `CreateStream` run persists the StreamSpec but the
subsequent `Broker.Subscribe` fails (the run returns the subscribe error),
the compensating delete removes the just-written entry before the call
returns: the registry is exactly what it was before the call, and in
particular holds no record for that uid. -/
theorem create_stream_subscribe_failure_no_orphan (env : CreateEnv)
    (st : EngineState) (spec : StreamSpec)
    (hfail : (CreateStream env st spec).2 = .error .subscribeFailed) :
    (CreateStream env st spec).1.registry = st.registry ∧
    ∀ s ∈ (CreateStream env st spec).1.registry, s.uid ≠ spec.uid := by
  by_cases hu : env.registryUnavailable
  · simp [CreateStream, StreamRegistry.Create, hu] at hfail
  · by_cases hc : st.registry.any (fun s => s.uid = spec.uid)
    · simp [CreateStream, StreamRegistry.Create, hu, hc] at hfail
    · by_cases hs : env.subscribeFails
      · have hall : ∀ s ∈ st.registry, ¬ s.uid = spec.uid := by simpa using hc
        have hreg : (CreateStream env st spec).1.registry =
            (st.registry ++ [spec]).filter (fun s => s.uid ≠ spec.uid) := by
          simp [CreateStream, StreamRegistry.Create, StreamRegistry.Delete, hu, hc, hs]
        constructor
        · rw [hreg, List.filter_append]
          have h1 : st.registry.filter (fun s => s.uid ≠ spec.uid) = st.registry :=
            List.filter_eq_self.mpr (by intro a ha; simpa using hall a ha)
          have h2 : [spec].filter (fun s => s.uid ≠ spec.uid) = [] := by simp
          rw [h1, h2, List.append_nil]
        · rw [hreg]
          intro s hsm
          have := List.of_mem_filter hsm
          simpa using this
      · simp [CreateStream, StreamRegistry.Create, hu, hc, hs] at hfail

/-- Witness for `create_stream_subscribe_failure_no_orphan`: a concrete
create over a one-row registry whose subscribe step fails. -/
theorem create_stream_subscribe_failure_no_orphan_witness :
    (CreateStream ⟨false, true⟩ ⟨[⟨"s-0", "t0", "k0", "b0", 0⟩], []⟩
        ⟨"s-1", "devices/42/temp", "pubKeyA", "bucket-7", 1⟩).1.registry =
      [⟨"s-0", "t0", "k0", "b0", 0⟩] ∧
    ∀ s ∈ (CreateStream ⟨false, true⟩ ⟨[⟨"s-0", "t0", "k0", "b0", 0⟩], []⟩
        ⟨"s-1", "devices/42/temp", "pubKeyA", "bucket-7", 1⟩).1.registry,
      s.uid ≠ "s-1" :=
  create_stream_subscribe_failure_no_orphan ⟨false, true⟩
    ⟨[⟨"s-0", "t0", "k0", "b0", 0⟩], []⟩
    ⟨"s-1", "devices/42/temp", "pubKeyA", "bucket-7", 1⟩ (by rfl)
